import Mathlib

/-!
Verification of the CLARA front-end OAuth authorization flow.

This file gives a shallow embedding of the repository's OAuth code:

* `src/lib/oauth.ts` — the required Google Fit scope list `FIT_SCOPES`,
  the scope verifier `hasRequiredScopes`, and the OAuth client factory
  `buildOAuthClient`;
* `src/app/authorize/route.ts` — the initiate endpoint `GET` handler
  (`authorizeGET` below), which issues the CSRF state cookie and builds
  the Google consent URL;
* the OAuth2 callback handler (`GET` in `src/unnamed/part_001`,
  lines 1047–1121; `oauthCallbackGET` below), which validates the query
  parameters and CSRF state, exchanges the code, verifies scopes, stores
  the token response in a cookie and redirects.

Effectful pieces (cookie store, the network call to Google's token
endpoint) are modelled by explicit inputs and outputs: the callback
handler receives the incoming query parameters, the current value of the
`oauth_state` cookie, and the outcome of the token exchange as an
`Except` value, and returns the redirect target together with the list
of `Set-Cookie` operations it performs and a flag recording whether the
exchange step was reached.
-/

namespace ClaraOAuth

/-- The `SameSite` attribute values of a cookie. -/
inductive SameSite where
  | lax
  | strict
  | noneVal
deriving DecidableEq, Repr

/-- Cookie attributes, mirroring the option objects passed to
`cookies().set` / `resp.cookies.set` in the source.  A field that the
source does not pass is `none` / `false` here. -/
structure CookieOptions where
  httpOnly : Bool := false
  sameSite : Option SameSite := none
  secure : Bool := false
  path : Option String := none
  maxAge : Option Nat := none
deriving DecidableEq, Repr

/-- One `Set-Cookie` operation: name, value and attributes. -/
structure SetCookie where
  name : String
  value : String
  opts : CookieOptions
deriving DecidableEq, Repr

/-- `FIT_SCOPES` from `src/lib/oauth.ts` (lines 8–14): the Google Fit
scopes the application requires. -/
def FIT_SCOPES : List String :=
  [ "https://www.googleapis.com/auth/fitness.activity.read",
    "https://www.googleapis.com/auth/fitness.location.read",
    "https://www.googleapis.com/auth/fitness.body.read",
    "https://www.googleapis.com/auth/fitness.heart_rate.read",
    "https://www.googleapis.com/auth/fitness.sleep.read" ]

/-- Split a character list at every character satisfying `p`, keeping
empty fields, exactly as JavaScript `str.split(sep)` does for a
one-character separator: `"a  b".split(" ") = ["a", "", "b"]` and
`"".split(" ") = [""]`. -/
def splitBy (p : Char → Bool) : List Char → List (List Char)
  | [] => [[]]
  | c :: cs =>
    if p c then [] :: splitBy p cs
    else
      match splitBy p cs with
      | [] => [[c]]
      | t :: ts => (c :: t) :: ts

/-- JavaScript `g.split(" ")` on a string: the fields between single
space characters, empties kept. -/
def jsSplitSpace (g : String) : List String :=
  (splitBy (fun ch => ch = ' ') g.data).map String.mk

/-- The granted-token list computed by `hasRequiredScopes`
(`src/lib/oauth.ts` line 78): `granted.split(" ").filter(Boolean)` —
split on the space character and drop empty fields. -/
def scopeTokens (g : String) : List String :=
  (jsSplitSpace g).filter (fun t => t ≠ "")

/-- `hasRequiredScopes` from `src/lib/oauth.ts` (lines 76–80).  The
argument is `Option String` to model `string | null | undefined`; the
JavaScript guard `if (!granted) return false` is falsy for `null`,
`undefined` and the empty string. -/
def hasRequiredScopes : Option String → Bool
  | none => false
  | some g =>
    if g = "" then false
    else FIT_SCOPES.all (fun scope => (scopeTokens g).contains scope)

/-- Tokenization by arbitrary whitespace (spaces, tabs, newlines),
written to the specification's words "every element of the required
ScopeSet appears as a whitespace-delimited token of the granted string";
used only to compare the spec's claimed semantics against the source's
space-only split. -/
def specWhitespaceTokens (g : String) : List String :=
  ((splitBy Char.isWhitespace g.data).map String.mk).filter (fun t => t ≠ "")

/-- The `Credentials` token response of `google-auth-library` as used by
the callback handler: access/refresh tokens, the space-delimited granted
scope string, token type, expiry (milliseconds since the epoch) and id
token.  Absent fields are `none` (JavaScript `undefined`). -/
structure Credentials where
  access_token : Option String := none
  refresh_token : Option String := none
  scope : Option String := none
  token_type : Option String := none
  expiry_date : Option Nat := none
  id_token : Option String := none
deriving DecidableEq, Repr

/-- One JSON string field, `"k":"v"`.  (The concrete values used in this
file contain no characters that JSON escaping would rewrite.) -/
def jsonStringField (k v : String) : String :=
  "\"" ++ k ++ "\":\"" ++ v ++ "\""

/-- `JSON.stringify(tokenResponse)` as called by the callback handler
(`src/unnamed/part_001` line 1108): the plaintext JSON object listing the
fields that are present, in the field order Google's token response
carries them.  `undefined` fields are omitted, as `JSON.stringify`
omits them. -/
def serializeCredentials (c : Credentials) : String :=
  "\x7b" ++
    String.intercalate ","
      (List.filterMap id
        [ c.access_token.map (fun v => jsonStringField "access_token" v),
          c.refresh_token.map (fun v => jsonStringField "refresh_token" v),
          c.scope.map (fun v => jsonStringField "scope" v),
          c.token_type.map (fun v => jsonStringField "token_type" v),
          c.expiry_date.map (fun n => "\"expiry_date\":" ++ toString n),
          c.id_token.map (fun v => jsonStringField "id_token" v) ]) ++
  "\x7d"

/-- The response of one callback request: the redirect target, the list
of `Set-Cookie` operations performed (in program order), and whether the
handler reached the token-exchange step (i.e. whether a network call to
the provider's token endpoint was made). -/
structure CallbackResult where
  redirect : String
  cookieSets : List SetCookie
  exchangeAttempted : Bool
deriving DecidableEq, Repr

/-- The response of every abort path of the callback handler:
`NextResponse.redirect("/unsuccessful")` with no cookie writes. -/
def abortResult : CallbackResult :=
  { redirect := "/unsuccessful", cookieSets := [], exchangeAttempted := false }

/-- The `oauth_tokens` session cookie written on the success path
(`src/unnamed/part_001` lines 1108–1113): the plaintext JSON
serialization of the token response, `HttpOnly`, `SameSite=Lax`,
`Secure` in production, path `/`, no max-age. -/
def sessionCookie (prod : Bool) (tok : Credentials) : SetCookie :=
  { name := "oauth_tokens",
    value := serializeCredentials tok,
    opts := { httpOnly := true, sameSite := some SameSite.lax,
              secure := prod, path := some "/" } }

/-- The `oauth_state`-clearing write on the success path
(`src/unnamed/part_001` line 1116): empty value, `maxAge 0`, path `/`. -/
def clearStateCookie : SetCookie :=
  { name := "oauth_state", value := "",
    opts := { maxAge := some 0, path := some "/" } }

/-- The granted-scope list computed inline by the callback handler
(`src/unnamed/part_001` line 1098): `(tokenResponse.scope ?? "").split(" ")`
— space split with no empty-field filtering. -/
def grantedList (tok : Credentials) : List String :=
  jsSplitSpace (tok.scope.getD "")

/-- The missing-scope list computed inline by the callback handler
(`src/unnamed/part_001` line 1099):
`FIT_SCOPES.filter((scope) => !grantedScopes.includes(scope))`. -/
def missingScopes (tok : Credentials) : List String :=
  FIT_SCOPES.filter (fun s => !(grantedList tok).contains s)

/-- The success response of the callback handler: set the `oauth_tokens`
cookie, clear `oauth_state`, redirect to `/`. -/
def successResult (prod : Bool) (tok : Credentials) : CallbackResult :=
  { redirect := "/",
    cookieSets := [sessionCookie prod tok, clearStateCookie],
    exchangeAttempted := true }

/-- The OAuth2 callback handler `GET` of `src/unnamed/part_001`
(lines 1058–1120).  `state` and `code` are the query parameters
(`none` = absent), `storedState` the current `oauth_state` cookie value
(`none` = absent), and `exchange` the outcome of
`oauth2Client.getToken(...)` — an `Except` so that a thrown error is
`.error`.  JavaScript falsiness of an empty string is modelled
explicitly in the guards. -/
def oauthCallbackGET (prod : Bool) (state code storedState : Option String)
    (exchange : Except Unit Credentials) : CallbackResult :=
  match state, code with
  | some s, some c =>
    if s = "" ∨ c = "" then abortResult
    else
      match storedState with
      | none => abortResult
      | some ss =>
        if ss = "" ∨ ss ≠ s then abortResult
        else
          match exchange with
          | .error _ => { abortResult with exchangeAttempted := true }
          | .ok tok =>
            if missingScopes tok ≠ [] then
              { abortResult with exchangeAttempted := true }
            else successResult prod tok
  | _, _ => abortResult

/-- JavaScript truthiness of a `string | null | undefined` query
parameter: present and non-empty. -/
def truthy : Option String → Bool
  | none => false
  | some s => s ≠ ""

/-- The part of a `CallbackResult` the browser observes: the redirect
target and the cookie operations.  (Redirect responses in the source
carry no body.) -/
def toResponse (r : CallbackResult) : String × List SetCookie :=
  (r.redirect, r.cookieSets)

/-- Effect of one `Set-Cookie` operation on the stored `oauth_state`
cookie: a write with `maxAge 0` deletes it, any other write to that name
replaces it, writes to other names leave it unchanged. -/
def applyStateCookie (st : Option String) (sc : SetCookie) : Option String :=
  if sc.name = "oauth_state" then
    if sc.opts.maxAge = some 0 then none else some sc.value
  else st

/-- The `oauth_state` cookie value after the browser applies all
`Set-Cookie` operations of a callback response. -/
def stateAfter (st : Option String) (r : CallbackResult) : Option String :=
  r.cookieSets.foldl applyStateCookie st

/-! ### The initiate endpoint, `src/app/authorize/route.ts` -/

/-- How `URLSearchParams` renders a `string | undefined` value fed to it
via `process.env.X as string`: `undefined` is coerced to the literal
string `undefined`. -/
def jsEnvString (o : Option String) : String := o.getD "undefined"

/-- The `scope` parameter built by the initiate endpoint
(`src/app/authorize/route.ts` line 12): the baseline identity scopes
followed by `FIT_SCOPES` joined with single spaces. -/
def baselinePlusFitScopes : String :=
  "openid email profile " ++ String.intercalate " " FIT_SCOPES

/-- The response of the initiate endpoint: the consent-URL query
parameters in insertion order, and the cookie writes. -/
structure AuthorizeResult where
  redirectParams : List (String × String)
  cookieSets : List SetCookie
deriving DecidableEq, Repr

/-- The initiate endpoint `GET` of `src/app/authorize/route.ts`
(lines 5–34).  `state` is the value of `crypto.randomUUID()`;
`envClientId` / `envRedirectUri` are `process.env.GOOGLE_CLIENT_ID` /
`process.env.GOOGLE_REDIRECT_URI`.  It builds the Google consent URL and
sets the `oauth_state` cookie on the redirect response. -/
def authorizeGET (prod : Bool) (envClientId envRedirectUri : Option String)
    (state : String) : AuthorizeResult :=
  { redirectParams :=
      [ ("client_id", jsEnvString envClientId),
        ("redirect_uri", jsEnvString envRedirectUri),
        ("response_type", "code"),
        ("scope", baselinePlusFitScopes),
        ("access_type", "offline"),
        ("include_granted_scopes", "true"),
        ("prompt", "consent"),
        ("state", state) ],
    cookieSets :=
      [ { name := "oauth_state", value := state,
          opts := { httpOnly := true, sameSite := some SameSite.lax,
                    secure := prod, path := some "/" } } ] }

/-! ### The OAuth client factory, `src/lib/oauth.ts` -/

/-- The credential record read from `client_secret.json` by
`readClientSecrets` (`src/lib/oauth.ts` lines 38–52). -/
structure FileCreds where
  id : String
  secret : String
  redirectUri : String
deriving DecidableEq, Repr

/-- The environment variables consulted by `buildOAuthClient`:
`GOOGLE_CLIENT_ID`, `GOOGLE_CLIENT_SECRET`, `GOOGLE_REDIRECT_URI`. -/
structure OAuthEnv where
  clientId : Option String := none
  clientSecret : Option String := none
  redirectUri : Option String := none
deriving DecidableEq, Repr

/-- The configuration of the constructed `OAuth2Client`. -/
structure OAuthClientConfig where
  clientId : String
  clientSecret : Option String
  redirectUri : String
deriving DecidableEq, Repr

/-- The error message thrown by `buildOAuthClient`
(`src/lib/oauth.ts` line 61). -/
def credentialsErrorMsg : String :=
  "Google OAuth credentials not found. Add client_secret.json or env vars."

/-- JavaScript `a ?? b` on `string | undefined` values. -/
def jsNullish (a b : Option String) : Option String :=
  match a with
  | some v => some v
  | none => b

/-- `buildOAuthClient` from `src/lib/oauth.ts` (lines 54–69):
file-based credentials take precedence over environment variables via
`??`; the function throws if the resulting client id or redirect URI is
falsy (absent or empty). -/
def buildOAuthClient (fileCreds : Option FileCreds) (env : OAuthEnv) :
    Except String OAuthClientConfig :=
  let clientId := jsNullish (fileCreds.map FileCreds.id) env.clientId
  let clientSecret := jsNullish (fileCreds.map FileCreds.secret) env.clientSecret
  let redirectUri := jsNullish (fileCreds.map FileCreds.redirectUri) env.redirectUri
  if clientId.getD "" = "" ∨ redirectUri.getD "" = "" then
    .error credentialsErrorMsg
  else
    .ok { clientId := clientId.getD "", clientSecret := clientSecret,
          redirectUri := redirectUri.getD "" }

/-! ## Concrete inputs used in counterexamples and witnesses -/

/-- All five required scopes joined with single spaces: a granted-scope
string on which the verifier succeeds. -/
def allGrantedScopes : String := String.intercalate " " FIT_SCOPES

/-- All five required scopes joined with tab characters: every required
scope is a whitespace-delimited token of this string, but none is a
space-delimited token. -/
def tabGrantedScopes : String := String.intercalate "\t" FIT_SCOPES

/-- All five required scopes in reverse order, space-joined. -/
def revGrantedScopes : String := String.intercalate " " FIT_SCOPES.reverse

/-- A complete token response whose granted scope covers all of
`FIT_SCOPES`. -/
def tokAll : Credentials :=
  { access_token := some "ya29.A", refresh_token := some "1//refr",
    scope := some allGrantedScopes, token_type := some "Bearer",
    expiry_date := some 1700000000000 }

/-- A token response granting every required scope except
`fitness.sleep.read`. -/
def tokNoSleep : Credentials :=
  { access_token := some "ya29.B",
    scope := some (String.intercalate " " (FIT_SCOPES.take 4)),
    token_type := some "Bearer" }

/-- The environment with none of the Google OAuth variables set. -/
def emptyEnv : OAuthEnv :=
  { clientId := none, clientSecret := none, redirectUri := none }

/-! ## Helper lemmas -/

/-- Splitting never yields the empty list of fields. -/
theorem splitBy_ne_nil (p : Char → Bool) (l : List Char) : splitBy p l ≠ [] := by
  induction l with
  | nil => simp [splitBy]
  | cons c cs ih =>
    simp only [splitBy]
    split
    · simp
    · rcases hx : splitBy p cs with _ | ⟨t, ts⟩ <;> simp

/-- Splitting a concatenation around an explicit separator character
splits each side independently. -/
theorem splitBy_append (p : Char → Bool) (x y : List Char) (c : Char)
    (hc : p c = true) :
    splitBy p (x ++ c :: y) = splitBy p x ++ splitBy p y := by
  induction x with
  | nil => simp [splitBy, hc]
  | cons d x ih =>
    by_cases hd : p d = true
    · simp [splitBy, hd, ih]
    · rw [List.cons_append]
      simp only [splitBy, hd, if_neg, ih, Bool.false_eq_true, if_false]
      rcases hx : splitBy p x with _ | ⟨t, ts⟩
      · exact absurd hx (splitBy_ne_nil p x)
      · simp

/-- The token list of a string extended by a space and a further suffix
is the two token lists concatenated. -/
theorem scopeTokens_append (g t : String) :
    scopeTokens (g ++ " " ++ t) = scopeTokens g ++ scopeTokens t := by
  unfold scopeTokens jsSplitSpace
  have hdata : (g ++ " " ++ t).data = g.data ++ ' ' :: t.data := by
    simp [String.data_append]
  rw [hdata, splitBy_append _ _ _ _ (by simp), List.map_append, List.filter_append]

/-- Characterization of the scope verifier: it returns `true` exactly
when every required scope occurs among the space-split tokens of the
granted string (both sides are false for the empty string, since
`FIT_SCOPES` is non-empty and `scopeTokens ""` is empty). -/
theorem hasRequiredScopes_iff (g : String) :
    hasRequiredScopes (some g) = true ↔ ∀ r ∈ FIT_SCOPES, r ∈ scopeTokens g := by
  have hdef : hasRequiredScopes (some g) =
      if g = "" then false
      else FIT_SCOPES.all (fun scope => (scopeTokens g).contains scope) := rfl
  rw [hdef]
  by_cases hg : g = ""
  · subst hg
    rw [if_pos rfl]
    constructor
    · intro h; exact absurd h (by simp)
    · intro h
      have h1 := h "https://www.googleapis.com/auth/fitness.activity.read"
        (by simp [FIT_SCOPES])
      simp [scopeTokens, jsSplitSpace, splitBy] at h1
  · rw [if_neg hg, List.all_eq_true]
    constructor
    · intro h r hr
      exact List.elem_iff.mp (h r hr)
    · intro h r hr
      exact List.elem_iff.mpr (h r hr)

/-- A callback run without a stored `oauth_state` cookie is the abort
response no matter what else happens. -/
theorem callback_noCookie_eq (prod : Bool) (s c : String)
    (ex : Except Unit Credentials) :
    oauthCallbackGET prod (some s) (some c) none ex = abortResult := by
  show (if s = "" ∨ c = "" then abortResult else abortResult) = abortResult
  split <;> rfl

/-- Unfolding equation of the callback handler when the exchange
throws. -/
theorem callback_err_eq (prod : Bool) (s c ss : String) (e : Unit) :
    oauthCallbackGET prod (some s) (some c) (some ss) (.error e) =
      (if s = "" ∨ c = "" then abortResult
       else if ss = "" ∨ ss ≠ s then abortResult
       else { abortResult with exchangeAttempted := true }) := rfl

/-- Unfolding equation of the callback handler when the exchange
returns a token response. -/
theorem callback_ok_eq (prod : Bool) (s c ss : String) (tok : Credentials) :
    oauthCallbackGET prod (some s) (some c) (some ss) (.ok tok) =
      (if s = "" ∨ c = "" then abortResult
       else if ss = "" ∨ ss ≠ s then abortResult
       else if missingScopes tok ≠ [] then
         { abortResult with exchangeAttempted := true }
       else successResult prod tok) := rfl

/-- Either the callback run is a full success (for a token response
returned by the exchange with no missing scope), or it is an abort:
redirect to `/unsuccessful` with no cookie writes. -/
theorem callback_cases (prod : Bool) (state code storedState : Option String)
    (ex : Except Unit Credentials) :
    (∃ tok, ex = .ok tok ∧ missingScopes tok = [] ∧
        oauthCallbackGET prod state code storedState ex = successResult prod tok) ∨
    ((oauthCallbackGET prod state code storedState ex).redirect = "/unsuccessful" ∧
        (oauthCallbackGET prod state code storedState ex).cookieSets = []) := by
  rcases state with _ | s <;> rcases code with _ | c
  · right; exact ⟨rfl, rfl⟩
  · right; exact ⟨rfl, rfl⟩
  · right; exact ⟨rfl, rfl⟩
  rcases storedState with _ | ss
  · rw [callback_noCookie_eq]; right; exact ⟨rfl, rfl⟩
  rcases ex with e | tok
  · rw [callback_err_eq]
    right
    split
    · exact ⟨rfl, rfl⟩
    · split <;> exact ⟨rfl, rfl⟩
  · rw [callback_ok_eq]
    by_cases h1 : s = "" ∨ c = ""
    · right; rw [if_pos h1]; exact ⟨rfl, rfl⟩
    rw [if_neg h1]
    by_cases h2 : ss = "" ∨ ss ≠ s
    · right; rw [if_pos h2]; exact ⟨rfl, rfl⟩
    rw [if_neg h2]
    by_cases h3 : missingScopes tok ≠ []
    · right; rw [if_pos h3]; exact ⟨rfl, rfl⟩
    · rw [if_neg h3]
      left
      exact ⟨tok, rfl, not_not.mp h3, rfl⟩

/-- A callback run with no stored `oauth_state` cookie always aborts. -/
theorem no_stored_state_aborts (prod : Bool) (state code : Option String)
    (ex : Except Unit Credentials) :
    (oauthCallbackGET prod state code none ex).redirect = "/unsuccessful" := by
  rcases state with _ | s <;> rcases code with _ | c <;> try rfl
  rw [callback_noCookie_eq]
  rfl

/-! ## Claims -/

/-- C3 (amended): the scope verifier is total (a Lean function), returns
`false` for a `null`/`undefined` or empty granted string, and for every
granted string returns `true` exactly when every required scope appears
as a token of the granted string split on the single space character —
not on general whitespace; the space-only delimiter is the amendment
forced by `c3_counterexample`. -/
theorem c3_scope_verifier_space_delimited :
    hasRequiredScopes none = false ∧
    hasRequiredScopes (some "") = false ∧
    ∀ g : String,
      (hasRequiredScopes (some g) = true ↔ ∀ r ∈ FIT_SCOPES, r ∈ scopeTokens g) :=
  ⟨rfl, rfl, fun g => hasRequiredScopes_iff g⟩

set_option maxRecDepth 4096 in
/-- C3 counterexample: on the granted string joining all required scopes
with tabs, every required scope is a whitespace-delimited token (first
conjunct), so the claim as stated requires the verifier to return
`true`; the verifier returns `false` (second conjunct), because
`granted.split(" ")` splits on the space character only. -/
theorem c3_counterexample :
    FIT_SCOPES.all (fun r => (specWhitespaceTokens tabGrantedScopes).contains r) = true ∧
    hasRequiredScopes (some tabGrantedScopes) = false := by
  constructor <;> decide

/-- C10 (confirmed): the scope verifier is monotone in the granted
string — appending a further space-delimited token to a granted string
it accepts keeps it accepted — and depends only on the multiset of
tokens: any two granted strings whose token lists are permutations of
one another get the same verdict. -/
theorem c10_scope_verifier_monotone_perm :
    (∀ g t : String, hasRequiredScopes (some g) = true →
        hasRequiredScopes (some (g ++ " " ++ t)) = true) ∧
    (∀ g g' : String, List.Perm (scopeTokens g) (scopeTokens g') →
        hasRequiredScopes (some g) = hasRequiredScopes (some g')) := by
  constructor
  · intro g t h
    rw [hasRequiredScopes_iff] at h ⊢
    intro r hr
    rw [scopeTokens_append]
    exact List.mem_append_left _ (h r hr)
  · intro g g' hp
    by_cases h : hasRequiredScopes (some g) = true
    · rw [h]
      symm
      rw [hasRequiredScopes_iff]
      intro r hr
      exact hp.mem_iff.mp ((hasRequiredScopes_iff g).mp h r hr)
    · have h' : hasRequiredScopes (some g') ≠ true := fun hc =>
        h ((hasRequiredScopes_iff g).mpr (fun r hr =>
          hp.mem_iff.mpr ((hasRequiredScopes_iff g').mp hc r hr)))
      simp only [ne_eq, Bool.not_eq_true] at h h'
      rw [h, h']

/-- C10 witness: the monotonicity branch applied to the fully granted
string plus one extra token, and the permutation branch applied to the
reversed scope list. -/
theorem c10_witness :
    hasRequiredScopes (some (allGrantedScopes ++ " " ++ "extra.scope")) = true ∧
    hasRequiredScopes (some revGrantedScopes) = hasRequiredScopes (some allGrantedScopes) :=
  ⟨c10_scope_verifier_monotone_perm.1 allGrantedScopes "extra.scope" (by decide),
   c10_scope_verifier_monotone_perm.2 revGrantedScopes allGrantedScopes (by decide)⟩

/-- C1 (amended): on the success path of the callback handler — both
parameters present and non-empty, stored state matching, exchange
successful, no missing scope — the handler persists the token response
under the fixed cookie name `oauth_tokens` as its plaintext JSON
serialization in an `HttpOnly` cookie; the encrypted-cookie helper
`setEncryptedCookie` of `src/lib/oauth.ts` is not used, so the stored
value is the plaintext serialization of the credential, not a Base64
IV‖ciphertext‖tag blob (the amendment forced by `c1_counterexample`). -/
theorem c1_plaintext_session_cookie (prod : Bool) (s c : String)
    (tok : Credentials) (hs : s ≠ "") (hc : c ≠ "")
    (hscope : missingScopes tok = []) :
    oauthCallbackGET prod (some s) (some c) (some s) (.ok tok) =
      successResult prod tok ∧
    (sessionCookie prod tok).name = "oauth_tokens" ∧
    (sessionCookie prod tok).value = serializeCredentials tok ∧
    (sessionCookie prod tok).opts.httpOnly = true := by
  refine ⟨?_, rfl, rfl, rfl⟩
  rw [callback_ok_eq, if_neg (fun h => h.elim hs hc),
    if_neg (fun h => h.elim hs (fun hne => hne rfl)),
    if_neg (fun hne => hne hscope)]

set_option maxRecDepth 8192 in
/-- C1 counterexample: a concrete callback run that passes every check
stores, under the session-cookie name `oauth_tokens`, exactly the
plaintext JSON serialization of the token response — the access and
refresh tokens appear verbatim — and not a Base64 encoding of an
authenticated ciphertext, refuting the claim that the persisted value is
never the plaintext serialization. -/
theorem c1_counterexample :
    (oauthCallbackGET false (some "abc123") (some "xyz") (some "abc123")
        (.ok tokAll)).cookieSets.map (fun sc => (sc.name, sc.value)) =
      [("oauth_tokens", serializeCredentials tokAll), ("oauth_state", "")] ∧
    serializeCredentials tokAll =
      "\x7b\"access_token\":\"ya29.A\",\"refresh_token\":\"1//refr\",\"scope\":\"" ++
        allGrantedScopes ++
        "\",\"token_type\":\"Bearer\",\"expiry_date\":1700000000000\x7d" := by
  constructor <;> decide

/-- C2 (amended): the callback handler clears the `oauth_state` cookie
(max-age 0) only on the fully successful path.  Consequently a second
callback after a successful one finds no stored state and fails CSRF
validation; but after any failed callback the state cookie is left
unchanged, so the same state value can be validated again (the amendment
forced by `c2_counterexample`). -/
theorem c2_state_cleared_only_on_success (prod : Bool)
    (state code storedState : Option String) (ex : Except Unit Credentials) :
    ((oauthCallbackGET prod state code storedState ex).redirect = "/" →
      stateAfter storedState (oauthCallbackGET prod state code storedState ex) = none ∧
      (oauthCallbackGET prod state code
          (stateAfter storedState (oauthCallbackGET prod state code storedState ex))
          ex).redirect = "/unsuccessful") ∧
    ((oauthCallbackGET prod state code storedState ex).redirect ≠ "/" →
      stateAfter storedState (oauthCallbackGET prod state code storedState ex) =
        storedState) := by
  rcases callback_cases prod state code storedState ex with ⟨tok, _, _, heq⟩ | ⟨hr, hcs⟩
  · constructor
    · intro _
      have hsa : stateAfter storedState
          (oauthCallbackGET prod state code storedState ex) = none := by
        rw [heq]
        simp [stateAfter, successResult, applyStateCookie, sessionCookie,
          clearStateCookie]
      refine ⟨hsa, ?_⟩
      rw [hsa]
      exact no_stored_state_aborts prod state code ex
    · intro hne
      rw [heq] at hne
      exact absurd rfl hne
  · constructor
    · intro h
      rw [hr] at h
      exact absurd h (by decide)
    · intro _
      unfold stateAfter
      rw [hcs]
      rfl

set_option maxRecDepth 8192 in
/-- C2 counterexample: a first callback with a matching state whose code
exchange fails leaves the `oauth_state` cookie untouched (first
conjunct), so the claimed clearing on every outcome does not happen; a
second callback replaying the very same state against the cookie store
left by the first then succeeds (second conjunct), refuting the claim
that any second validate with the same state fails. -/
theorem c2_counterexample :
    stateAfter (some "abc123")
      (oauthCallbackGET false (some "abc123") (some "code1") (some "abc123")
        (.error ())) = some "abc123" ∧
    (oauthCallbackGET false (some "abc123") (some "code2")
        (stateAfter (some "abc123")
          (oauthCallbackGET false (some "abc123") (some "code1") (some "abc123")
            (.error ())))
        (.ok tokAll)).redirect = "/" := by
  constructor <;> decide

/-- C4 (confirmed): when the exchange succeeds but at least one required
scope is missing from the granted set, the callback aborts with a
redirect to the failure page, writes no cookie at all — the partial
credential is never stored — and the computed missing-scope list
contains exactly the required scopes absent from the granted token
list. -/
theorem c4_missing_scope_discards_credential (prod : Bool) (s c : String)
    (tok : Credentials) (hs : s ≠ "") (hc : c ≠ "")
    (hmiss : missingScopes tok ≠ []) :
    oauthCallbackGET prod (some s) (some c) (some s) (.ok tok) =
      { redirect := "/unsuccessful", cookieSets := [], exchangeAttempted := true } ∧
    ∀ x : String, x ∈ missingScopes tok ↔ x ∈ FIT_SCOPES ∧ x ∉ grantedList tok := by
  constructor
  · rw [callback_ok_eq, if_neg (fun h => h.elim hs hc),
      if_neg (fun h => h.elim hs (fun hne => hne rfl)), if_pos hmiss]
    rfl
  · intro x
    simp [missingScopes, List.mem_filter, List.elem_iff]

set_option maxRecDepth 8192 in
/-- C4 witness: the spec's own scenario — a token response granting all
required scopes except `fitness.sleep.read` — instantiating
`c4_missing_scope_discards_credential`. -/
theorem c4_witness :
    oauthCallbackGET false (some "abc123") (some "xyz") (some "abc123")
        (.ok tokNoSleep) =
      { redirect := "/unsuccessful", cookieSets := [], exchangeAttempted := true } ∧
    ∀ x : String, x ∈ missingScopes tokNoSleep ↔
      x ∈ FIT_SCOPES ∧ x ∉ grantedList tokNoSleep :=
  c4_missing_scope_discards_credential false "abc123" "xyz" tokNoSleep
    (by decide) (by decide) (by decide)

/-- C5 (confirmed): any two callback runs that abort — at the
missing-parameter check, the CSRF comparison, the code exchange or the
scope check — deliver the same browser-visible response: the same
redirect to the failure route with no cookie writes (and, redirects
carrying no body in the source, no error body or stack trace). -/
theorem c5_uniform_abort_response (p1 p2 : Bool)
    (st1 cd1 ck1 st2 cd2 ck2 : Option String)
    (e1 e2 : Except Unit Credentials)
    (h1 : (oauthCallbackGET p1 st1 cd1 ck1 e1).redirect ≠ "/")
    (h2 : (oauthCallbackGET p2 st2 cd2 ck2 e2).redirect ≠ "/") :
    toResponse (oauthCallbackGET p1 st1 cd1 ck1 e1) =
      toResponse (oauthCallbackGET p2 st2 cd2 ck2 e2) := by
  have shape : ∀ (p : Bool) (st cd ck : Option String)
      (e : Except Unit Credentials),
      (oauthCallbackGET p st cd ck e).redirect ≠ "/" →
      toResponse (oauthCallbackGET p st cd ck e) = ("/unsuccessful", []) := by
    intro p st cd ck e hne
    rcases callback_cases p st cd ck e with ⟨tok, _, _, heq⟩ | ⟨hr, hcs⟩
    · rw [heq] at hne
      exact absurd rfl hne
    · unfold toResponse
      rw [hr, hcs]
  rw [shape p1 st1 cd1 ck1 e1 h1, shape p2 st2 cd2 ck2 e2 h2]

set_option maxRecDepth 8192 in
/-- C5 witness: a run aborting at the missing-parameter check and a run
aborting at the scope check produce identical responses. -/
theorem c5_witness :
    toResponse (oauthCallbackGET false none (some "xyz") none (.ok tokAll)) =
      toResponse (oauthCallbackGET true (some "abc123") (some "xyz")
        (some "abc123") (.ok tokNoSleep)) :=
  c5_uniform_abort_response false true none (some "abc123") (some "xyz")
    (some "xyz") none (some "abc123") (.ok tokAll) (.ok tokNoSleep)
    (by decide) (by decide)

/-- C7 (confirmed): a callback lacking (or carrying an empty) `state` or
`code` query parameter is rejected with the failure redirect before the
exchange step is reached — `exchangeAttempted` is `false`, i.e. no call
to the provider's token endpoint is made. -/
theorem c7_missing_param_rejects_without_exchange (prod : Bool)
    (state code storedState : Option String) (ex : Except Unit Credentials)
    (h : truthy state = false ∨ truthy code = false) :
    oauthCallbackGET prod state code storedState ex = abortResult ∧
    abortResult.redirect = "/unsuccessful" ∧
    abortResult.exchangeAttempted = false := by
  refine ⟨?_, rfl, rfl⟩
  rcases state with _ | s <;> rcases code with _ | c <;> try rfl
  have h' : s = "" ∨ c = "" := by
    rcases h with h | h <;> simp [truthy] at h
    · exact Or.inl h
    · exact Or.inr h
  rcases storedState with _ | ss
  · rw [callback_noCookie_eq]
  · rcases ex with e | tok
    · rw [callback_err_eq, if_pos h']
    · rw [callback_ok_eq, if_pos h']

/-- C7 witness: a callback with no `code` parameter aborts without an
exchange attempt. -/
theorem c7_witness :
    oauthCallbackGET false (some "abc123") none (some "abc123") (.ok tokAll) =
      abortResult ∧
    abortResult.redirect = "/unsuccessful" ∧
    abortResult.exchangeAttempted = false :=
  c7_missing_param_rejects_without_exchange false (some "abc123") none
    (some "abc123") (.ok tokAll) (Or.inr (by decide))

set_option maxRecDepth 8192 in
/-- C1 witness: `c1_plaintext_session_cookie` instantiated at a concrete
fully granted token response. -/
theorem c1_witness :
    oauthCallbackGET false (some "abc123") (some "xyz") (some "abc123")
        (.ok tokAll) = successResult false tokAll ∧
    (sessionCookie false tokAll).name = "oauth_tokens" ∧
    (sessionCookie false tokAll).value = serializeCredentials tokAll ∧
    (sessionCookie false tokAll).opts.httpOnly = true :=
  c1_plaintext_session_cookie false "abc123" "xyz" tokAll (by decide)
    (by decide) (by decide)

set_option maxRecDepth 8192 in
/-- C2 witness: the success branch of `c2_state_cleared_only_on_success`
at a concrete successful run (cookie cleared, replay fails), and the
abort branch at a concrete CSRF-mismatch run (cookie retained). -/
theorem c2_witness :
    (stateAfter (some "abc123")
        (oauthCallbackGET false (some "abc123") (some "xyz") (some "abc123")
          (.ok tokAll)) = none ∧
      (oauthCallbackGET false (some "abc123") (some "xyz")
          (stateAfter (some "abc123")
            (oauthCallbackGET false (some "abc123") (some "xyz") (some "abc123")
              (.ok tokAll)))
          (.ok tokAll)).redirect = "/unsuccessful") ∧
    stateAfter (some "s1")
      (oauthCallbackGET false (some "s2") (some "xyz") (some "s1")
        (.ok tokAll)) = some "s1" :=
  ⟨(c2_state_cleared_only_on_success false (some "abc123") (some "xyz")
      (some "abc123") (.ok tokAll)).1 (by decide),
   (c2_state_cleared_only_on_success false (some "s2") (some "xyz")
      (some "s1") (.ok tokAll)).2 (by decide)⟩

/-- C6 (amended): the initiate endpoint stores the freshly generated
CSRF state in the `oauth_state` cookie with `HttpOnly`, `SameSite=Lax`,
`Secure` in production and path `/`, and embeds the same state value in
the consent URL; however the cookie is set with no max-age at all (a
browser-session cookie), not the short max-age the claim states — the
amendment forced by `c6_counterexample`. -/
theorem c6_state_cookie_issue (prod : Bool) (cid ruri : Option String)
    (state : String) :
    (authorizeGET prod cid ruri state).cookieSets =
      [ { name := "oauth_state", value := state,
          opts := { httpOnly := true, sameSite := some SameSite.lax,
                    secure := prod, path := some "/", maxAge := none } } ] ∧
    ("state", state) ∈ (authorizeGET prod cid ruri state).redirectParams :=
  ⟨rfl, by simp [authorizeGET]⟩

/-- C6 counterexample: at a concrete invocation (production mode) the
one cookie the initiate endpoint sets is `oauth_state` with
`maxAge = none` — no max-age attribute is ever set, contradicting the
claimed "short max-age". -/
theorem c6_counterexample :
    ((authorizeGET true (some "cid") (some "https://app/cb") "abc123").cookieSets.map
      (fun sc => (sc.name, sc.opts.maxAge))) = [("oauth_state", none)] := by
  decide

/-- C8 (amended): the consent URL built by the initiate endpoint
contains exactly the parameters `client_id`, `redirect_uri`,
`response_type=code`, `scope` equal to the baseline identity scopes
(`openid email profile`) followed by the required scopes joined with
single spaces, `access_type=offline`, `include_granted_scopes=true`,
`prompt=consent`, and `state` equal byte-for-byte to the value stored in
the `oauth_state` cookie.  The claim's list omitted `client_id` and
`redirect_uri`, which the URL also carries — the amendment forced by
`c8_counterexample`. -/
theorem c8_consent_url_params (prod : Bool) (cid ruri : Option String)
    (state : String) :
    (authorizeGET prod cid ruri state).redirectParams =
      [ ("client_id", jsEnvString cid),
        ("redirect_uri", jsEnvString ruri),
        ("response_type", "code"),
        ("scope", "openid email profile " ++ String.intercalate " " FIT_SCOPES),
        ("access_type", "offline"),
        ("include_granted_scopes", "true"),
        ("prompt", "consent"),
        ("state", state) ] ∧
    (authorizeGET prod cid ruri state).cookieSets.map
        (fun sc => (sc.name, sc.value)) = [("oauth_state", state)] :=
  ⟨rfl, rfl⟩

/-- C8 counterexample: at a concrete invocation the parameter-name list
of the consent URL is the eight names below — it also contains
`client_id` and `redirect_uri`, so the URL does not contain exactly the
six parameters enumerated by the claim. -/
theorem c8_counterexample :
    ((authorizeGET true (some "cid") (some "https://app/cb") "abc123").redirectParams.map
      Prod.fst) =
      ["client_id", "redirect_uri", "response_type", "scope", "access_type",
       "include_granted_scopes", "prompt", "state"] := by
  decide

/-- C9 (amended): `buildOAuthClient` does throw its misconfiguration
error whenever the client id or the redirect URI is unset in both the
credentials file and the environment; but the initiate endpoint's
consent-URL construction never invokes that check — it reads the
environment directly and still produces a full consent URL (with the
literal string `undefined` standing in for each unset value) — the
amendment forced by `c9_counterexample`. -/
theorem c9_misconfigured_client (env : OAuthEnv) (prod : Bool) (st : String)
    (h : env.clientId = none ∨ env.redirectUri = none) :
    buildOAuthClient none env = .error credentialsErrorMsg ∧
    (authorizeGET prod env.clientId env.redirectUri st).redirectParams.map
        Prod.fst =
      ["client_id", "redirect_uri", "response_type", "scope", "access_type",
       "include_granted_scopes", "prompt", "state"] := by
  refine ⟨?_, rfl⟩
  unfold buildOAuthClient jsNullish
  rcases h with h | h <;> rw [h]
  · rcases env.redirectUri with _ | r
    · rfl
    · simp
  · rcases env.clientId with _ | i
    · rfl
    · simp

/-- C9 counterexample: with client id and redirect URI unset everywhere,
the initiate endpoint still produces the complete consent URL — with
`client_id=undefined` and `redirect_uri=undefined` — instead of failing
with a misconfiguration error as the claim states. -/
theorem c9_counterexample :
    (authorizeGET true none none "abc123").redirectParams =
      [ ("client_id", "undefined"),
        ("redirect_uri", "undefined"),
        ("response_type", "code"),
        ("scope", baselinePlusFitScopes),
        ("access_type", "offline"),
        ("include_granted_scopes", "true"),
        ("prompt", "consent"),
        ("state", "abc123") ] := rfl

/-- C9 witness: `c9_misconfigured_client` at the concrete environment
with every variable unset. -/
theorem c9_witness :
    buildOAuthClient none emptyEnv = .error credentialsErrorMsg ∧
    (authorizeGET false emptyEnv.clientId emptyEnv.redirectUri "abc123").redirectParams.map Prod.fst =
      ["client_id", "redirect_uri", "response_type", "scope", "access_type",
       "include_granted_scopes", "prompt", "state"] :=
  c9_misconfigured_client emptyEnv false "abc123" (Or.inl rfl)

end ClaraOAuth
